import Mathlib

/-!
Shallow embedding of `internal/component/otelcol/connector/spanmetrics/spanmetrics.go`
(package `spanmetrics` of the alloy repository): the Arguments configuration
aggregate, its defaulting (`SetToDefault`), validation (`Validate`), the
bidirectional temporality codec (`convertAggregationTemporality`,
`FromOTelAggregationTemporality`) and the translation to the engine-native
configuration (`Convert`).

Modelling conventions:
* Go `int` / `int64` / `time.Duration` are modelled as `Int` (no arithmetic in
  this unit can overflow: the code only compares against 0 and copies values).
* A Go function returning `(T, error)` is modelled as `T × Option String`
  (the `Option String` is the error: `none` means the Go `nil` error), and a
  function returning `(*T, error)` with the `nil, err` / `ptr, nil` discipline
  as `Option T × Option String`.
* `fmt.Errorf` messages are reproduced literally; `%v` on an `int` prints the
  decimal numeral, which coincides with `toString  : Int → String`.
* Sub-configuration types whose code is not part of the repository slice
  (`Dimension.Convert`, `HistogramConfig.Convert`, `ExemplarsConfig.Convert`
  live in a sibling file) are modelled from the spec, each marked
  `Modelled from the spec:` in its doc comment.
* Go slice aliasing (needed for the exclude-dimensions copy claim) is modelled
  by a small store of backing arrays: a slice value is a reference into the
  store, `append([]string(nil), xs...)` allocates a fresh backing array.
-/

namespace spanmetrics

/-- `AggregationTemporalityCumulative = "CUMULATIVE"` (source constant). -/
def AggregationTemporalityCumulative : String := "CUMULATIVE"

/-- `AggregationTemporalityDelta = "DELTA"` (source constant). -/
def AggregationTemporalityDelta : String := "DELTA"

/-- Modelled from the spec: the Dimension Descriptor, "a name/default-value
pair describing one additional label to extract from a span attribute"
(its Go struct lives in a sibling file of the package, not in the slice). -/
structure Dimension where
  Name : String
  Default : Option String
deriving DecidableEq, Repr

/-- Modelled from the spec: the aggregation engine's dimension shape
(`spanmetricsconnector.Dimension`), a name/default pair. -/
structure EngineDimension where
  Name : String
  Default : Option String
deriving DecidableEq, Repr

/-- Modelled from the spec: "Translate each Dimension Descriptor into the
engine's dimension shape" — the translation preserves name and default
(the Go method `Dimension.Convert` is in a sibling file, not in the slice). -/
def Dimension.Convert (d : Dimension) : EngineDimension :=
  { Name := d.Name, Default := d.Default }

/-- Modelled from the spec: the engine-native histogram configuration
(`spanmetricsconnector.HistogramConfig`), opaque in this unit; carried as an
uninterpreted payload so that "propagate unchanged" is a real statement. -/
structure Histogram where
  payload : String
deriving DecidableEq, Repr

/-- Modelled from the spec: the user-facing Histogram Configuration, a
"sub-configuration selecting histogram bucketing strategy … with its own
validation" whose code is in a sibling file, not in the slice. This unit
only ever observes it through its own conversion, which either yields an
engine histogram or fails; the model therefore carries that outcome as the
value's abstract content. -/
instance : DecidableEq (Except String Histogram) := fun a b =>
  match a, b with
  | .ok x, .ok y =>
    if h : x = y then isTrue (by rw [h]) else isFalse (by simp [h])
  | .error x, .error y =>
    if h : x = y then isTrue (by rw [h]) else isFalse (by simp [h])
  | .ok _, .error _ => isFalse (by simp)
  | .error _, .ok _ => isFalse (by simp)

structure HistogramConfig where
  conv : Except String Histogram
deriving DecidableEq, Repr

/-- Modelled from the spec: "Delegate to Histogram Configuration's own
conversion; propagate its error unchanged if it fails" — the conversion is
the outcome carried by the value (Go returns `(*Histogram, error)`: error
on failure, a histogram the caller dereferences on success). -/
def HistogramConfig.Convert (h : HistogramConfig) : Except String Histogram :=
  h.conv

/-- The zero value of the (modelled) histogram configuration, as left in
place by `SetToDefault`. -/
def HistogramConfig.zero : HistogramConfig :=
  { conv := Except.ok { payload := "" } }

/-- Modelled from the spec: the Exemplar Configuration, a "sub-configuration
controlling exemplar attachment" whose code is in a sibling file. -/
structure ExemplarsConfig where
  Enabled : Bool
deriving DecidableEq, Repr

/-- Modelled from the spec: the engine-native exemplars configuration. -/
structure Exemplars where
  Enabled : Bool
deriving DecidableEq, Repr

/-- Modelled from the spec: the exemplars configuration is "delegated to its
own conversion, assumed infallible in this unit". -/
def ExemplarsConfig.Convert (e : ExemplarsConfig) : Exemplars :=
  { Enabled := e.Enabled }

/-- Modelled from the spec: the "downstream consumer handle"
(`otelcol.ConsumerArguments`), opaque to this unit. -/
structure ConsumerArguments where
  handle : Unit
deriving DecidableEq, Repr

/-- The `Arguments` struct of the source: the configuration aggregate.
`Output` is a Go pointer, hence `Option`; its zero value is `none` (nil). -/
structure Arguments where
  Dimensions : List Dimension
  ExcludeDimensions : List String
  DimensionsCacheSize : Int
  AggregationTemporality : String
  Histogram : HistogramConfig
  MetricsFlushInterval : Int
  Namespace : String
  Exemplars : ExemplarsConfig
  Output : Option ConsumerArguments
deriving DecidableEq, Repr

/-- The engine-native configuration (`spanmetricsconnector.Config`) with the
fields `Arguments.Convert` populates. -/
structure Config where
  Dimensions : List EngineDimension
  ExcludeDimensions : List String
  DimensionsCacheSize : Int
  AggregationTemporality : String
  Histogram : Histogram
  MetricsFlushInterval : Int
  Namespace : String
  Exemplars : Exemplars
deriving DecidableEq, Repr

/-- `DefaultArguments` of the source: cache size 1000, temporality
CUMULATIVE, flush interval `15 * time.Second` (15 000 000 000 ns), every
other field at its zero value. -/
def DefaultArguments : Arguments :=
  { Dimensions := []
    ExcludeDimensions := []
    DimensionsCacheSize := 1000
    AggregationTemporality := AggregationTemporalityCumulative
    Histogram := HistogramConfig.zero
    MetricsFlushInterval := 15 * 1000000000
    Namespace := ""
    Exemplars := { Enabled := false }
    Output := none }

/-- `Arguments.SetToDefault` of the source: `*args = DefaultArguments`, a
full overwrite of the receiver. -/
def Arguments.SetToDefault (_ : Arguments) : Arguments :=
  DefaultArguments

/-- `Arguments.Validate` of the source: `none` is the Go `nil` error. -/
def Arguments.Validate (args : Arguments) : Option String :=
  if args.DimensionsCacheSize ≤ 0 then
    some ("invalid cache size: " ++ toString args.DimensionsCacheSize ++
      ", the maximum number of the items in the cache should be positive")
  else if args.MetricsFlushInterval ≤ 0 then
    some "metrics_flush_interval must be greater than 0"
  else if args.AggregationTemporality = AggregationTemporalityCumulative ∨
          args.AggregationTemporality = AggregationTemporalityDelta then
    none
  else
    some ("invalid aggregation_temporality: " ++ args.AggregationTemporality)

/-- `convertAggregationTemporality` of the source: the forward ("toEngine")
direction of the temporality codec, `(string, error)` in Go. -/
def convertAggregationTemporality (temporality : String) : String × Option String :=
  if temporality = AggregationTemporalityCumulative then
    ("AGGREGATION_TEMPORALITY_CUMULATIVE", none)
  else if temporality = AggregationTemporalityDelta then
    ("AGGREGATION_TEMPORALITY_DELTA", none)
  else
    ("", some ("invalid aggregation_temporality: " ++ temporality))

/-- `FromOTelAggregationTemporality` of the source: the reverse ("fromEngine")
direction of the codec; unrecognized strings yield the empty sentinel, there
is no error return. -/
def FromOTelAggregationTemporality (temporality : String) : String :=
  if temporality = "AGGREGATION_TEMPORALITY_DELTA" then
    AggregationTemporalityDelta
  else if temporality = "AGGREGATION_TEMPORALITY_CUMULATIVE" then
    AggregationTemporalityCumulative
  else
    ""

/-- `Arguments.Convert` of the source, value-level view: Go's
`(otelcomponent.Config, error)` return is the pair; every error path returns
`(none, some err)` (nil config with the error), the success path
`(some cfg, none)`. -/
def Arguments.Convert (args : Arguments) : Option Config × Option String :=
  let dimensions := args.Dimensions.map Dimension.Convert
  match args.Histogram.Convert with
  | Except.error err => (none, some err)
  | Except.ok histogram =>
    match convertAggregationTemporality args.AggregationTemporality with
    | (_, some err) => (none, some err)
    | (aggregationTemporality, none) =>
      let excludeDimensions := args.ExcludeDimensions
      (some { Dimensions := dimensions
              ExcludeDimensions := excludeDimensions
              DimensionsCacheSize := args.DimensionsCacheSize
              AggregationTemporality := aggregationTemporality
              Histogram := histogram
              MetricsFlushInterval := args.MetricsFlushInterval
              Namespace := args.Namespace
              Exemplars := args.Exemplars.Convert }, none)

/-! ### Slice-aliasing model for the exclude-dimensions copy

`Convert` executes `excludeDimensions := append([]string(nil), args.ExcludeDimensions...)`
(spanmetrics.go line 149). At the level of Go's memory model a `[]string`
value is a reference to a backing array; `append` onto a nil slice allocates
a fresh backing array and copies the elements. The store below makes that
explicit: `SliceRef` is a reference, `SliceStore.data` gives each allocated
reference its current contents, `appendCopyNil` is the embedding of the
`append([]string(nil), xs...)` idiom and `writeSlice` an in-place mutation
of a slice's contents through its reference. -/

/-- A reference to a slice's backing array. -/
structure SliceRef where
  id : Nat
deriving DecidableEq, Repr

/-- The heap of allocated string-slice backing arrays: ids below `next` are
allocated, `data` gives their contents. -/
structure SliceStore where
  data : Nat → List String
  next : Nat

/-- Embedding of `append([]string(nil), src...)`: allocate a fresh backing
array (a reference no existing slice holds) containing a copy of the source
slice's elements. -/
def appendCopyNil (st : SliceStore) (src : SliceRef) : SliceRef × SliceStore :=
  (⟨st.next⟩,
   { data := fun i => if i = st.next then st.data src.id else st.data i
     next := st.next + 1 })

/-- In-place mutation of the slice behind `r` (e.g. `s[0] = v` or copying new
elements over it): replaces its contents, touching no other backing array. -/
def writeSlice (st : SliceStore) (r : SliceRef) (v : List String) : SliceStore :=
  { data := fun i => if i = r.id then v else st.data i
    next := st.next }

/-! ### Theorems for the claims -/

/-- C1: `Validate` succeeds (returns the nil error) if and only if
`DimensionsCacheSize > 0`, `MetricsFlushInterval > 0` and
`AggregationTemporality` is exactly `"CUMULATIVE"` or `"DELTA"`; every
`Arguments` violating any of the three gets an error. -/
theorem validate_ok_iff (a : Arguments) :
    a.Validate = none ↔
      (0 < a.DimensionsCacheSize ∧ 0 < a.MetricsFlushInterval ∧
       (a.AggregationTemporality = "CUMULATIVE" ∨
        a.AggregationTemporality = "DELTA")) := by
  unfold Arguments.Validate
  split_ifs with h1 h2 h3 <;>
    simp_all [AggregationTemporalityCumulative, AggregationTemporalityDelta]

/-- Concrete arguments used by witnesses: the spec's two-dimension example
with an otherwise valid configuration. -/
def argsDimsExample : Arguments :=
  { Dimensions := [{ Name := "http.method", Default := none },
                   { Name := "http.status_code", Default := some "200" }]
    ExcludeDimensions := []
    DimensionsCacheSize := 1000
    AggregationTemporality := "CUMULATIVE"
    Histogram := { conv := Except.ok { payload := "h" } }
    MetricsFlushInterval := 15 * 1000000000
    Namespace := ""
    Exemplars := { Enabled := false }
    Output := some { handle := () } }

/-- C2: on a valid `Arguments` with a convertible histogram, `Convert`
succeeds and its dimension sequence is exactly the translation of
`Arguments.Dimensions`: same length, same order, and at every position the
name and the default match. -/
theorem convert_preserves_dimensions (a : Arguments) (hg : Histogram)
    (hv : a.Validate = none) (hh : a.Histogram.Convert = Except.ok hg) :
    ∃ cfg : Config, a.Convert = (some cfg, none) ∧
      cfg.Dimensions = a.Dimensions.map Dimension.Convert ∧
      cfg.Dimensions.length = a.Dimensions.length ∧
      ∀ i : Nat,
        (cfg.Dimensions[i]?).map EngineDimension.Name =
          (a.Dimensions[i]?).map Dimension.Name ∧
        (cfg.Dimensions[i]?).map EngineDimension.Default =
          (a.Dimensions[i]?).map Dimension.Default := by
  have ht : a.AggregationTemporality = "CUMULATIVE" ∨
      a.AggregationTemporality = "DELTA" :=
    ((validate_ok_iff a).mp hv).2.2
  obtain ⟨et, het⟩ :
      ∃ et, convertAggregationTemporality a.AggregationTemporality = (et, none) := by
    rcases ht with ht | ht
    · exact ⟨"AGGREGATION_TEMPORALITY_CUMULATIVE", by rw [ht]; rfl⟩
    · exact ⟨"AGGREGATION_TEMPORALITY_DELTA", by rw [ht]; rfl⟩
  refine ⟨{ Dimensions := a.Dimensions.map Dimension.Convert
            ExcludeDimensions := a.ExcludeDimensions
            DimensionsCacheSize := a.DimensionsCacheSize
            AggregationTemporality := et
            Histogram := hg
            MetricsFlushInterval := a.MetricsFlushInterval
            Namespace := a.Namespace
            Exemplars := a.Exemplars.Convert }, ?_, rfl, by simp, ?_⟩
  · unfold Arguments.Convert
    rw [hh, het]
  · intro i
    cases h : a.Dimensions[i]? <;>
      simp [List.getElem?_map, h, Dimension.Convert]

/-- C2 witness: the spec's example, `dimensions = [{name:"http.method"},
{name:"http.status_code", default:"200"}]`. -/
theorem convert_preserves_dimensions_witness :
    ∃ cfg : Config, argsDimsExample.Convert = (some cfg, none) ∧
      cfg.Dimensions = argsDimsExample.Dimensions.map Dimension.Convert ∧
      cfg.Dimensions.length = argsDimsExample.Dimensions.length ∧
      ∀ i : Nat,
        (cfg.Dimensions[i]?).map EngineDimension.Name =
          (argsDimsExample.Dimensions[i]?).map Dimension.Name ∧
        (cfg.Dimensions[i]?).map EngineDimension.Default =
          (argsDimsExample.Dimensions[i]?).map Dimension.Default :=
  convert_preserves_dimensions argsDimsExample { payload := "h" } rfl rfl

/-- C3: `Convert` re-checks the temporality even when `Validate` was never
called: a histogram-conversion failure is propagated unchanged with a nil
config; with a convertible histogram, an invalid temporality yields the
codec's error unchanged with a nil config; an invalid temporality always
yields a nil config and some error; and `Convert` never returns a config
alongside an error (no partial result). -/
theorem convert_error_propagation (a : Arguments) :
    (∀ err, a.Histogram.Convert = Except.error err → a.Convert = (none, some err)) ∧
    (∀ hg, a.Histogram.Convert = Except.ok hg →
      ¬(a.AggregationTemporality = AggregationTemporalityCumulative ∨
        a.AggregationTemporality = AggregationTemporalityDelta) →
      a.Convert = (none, some ("invalid aggregation_temporality: " ++
        a.AggregationTemporality))) ∧
    (¬(a.AggregationTemporality = AggregationTemporalityCumulative ∨
       a.AggregationTemporality = AggregationTemporalityDelta) →
      a.Convert.1 = none ∧ (a.Convert.2).isSome = true) ∧
    (∀ cfg err, a.Convert ≠ (some cfg, some err)) := by
  push_neg
  have hbad : ∀ t : String, t ≠ AggregationTemporalityCumulative →
      t ≠ AggregationTemporalityDelta →
      convertAggregationTemporality t =
        ("", some ("invalid aggregation_temporality: " ++ t)) := by
    intro t h1 h2
    simp [convertAggregationTemporality, h1, h2]
  refine ⟨?_, ?_, ?_, ?_⟩
  · intro err herr
    unfold Arguments.Convert
    rw [herr]
  · intro hg hok hne
    obtain ⟨h1, h2⟩ := hne
    unfold Arguments.Convert
    rw [hok, hbad _ h1 h2]
  · intro hne
    obtain ⟨h1, h2⟩ := hne
    unfold Arguments.Convert
    cases hc : a.Histogram.Convert with
    | error err => simp
    | ok hg => rw [hbad _ h1 h2]; simp
  · intro cfg err
    unfold Arguments.Convert
    cases hc : a.Histogram.Convert with
    | error e => simp
    | ok hg =>
      cases ht : convertAggregationTemporality a.AggregationTemporality with
      | mk et eo =>
        cases eo <;> simp

/-- C4: round-trip of the temporality codec: for `x` in
{CUMULATIVE, DELTA}, the forward mapping succeeds and the reverse mapping
takes its result back to `x`. -/
theorem temporality_roundtrip (x : String)
    (h : x = AggregationTemporalityCumulative ∨ x = AggregationTemporalityDelta) :
    FromOTelAggregationTemporality (convertAggregationTemporality x).1 = x := by
  rcases h with h | h <;> rw [h] <;> rfl

/-- C4 witness: the round-trip at `x = "DELTA"`. -/
theorem temporality_roundtrip_witness :
    FromOTelAggregationTemporality
      (convertAggregationTemporality AggregationTemporalityDelta).1 =
      AggregationTemporalityDelta :=
  temporality_roundtrip AggregationTemporalityDelta (Or.inr rfl)

/-- C5: asymmetric codec error behaviour: the forward mapping fails (with
the empty first component and an error naming the input) on every string
outside {CUMULATIVE, DELTA}, while the reverse mapping returns the
empty-string sentinel on every string other than the two engine strings —
and, having no error return at all, never fails. -/
theorem codec_asymmetry (s t : String)
    (hs1 : s ≠ AggregationTemporalityCumulative)
    (hs2 : s ≠ AggregationTemporalityDelta)
    (ht1 : t ≠ "AGGREGATION_TEMPORALITY_DELTA")
    (ht2 : t ≠ "AGGREGATION_TEMPORALITY_CUMULATIVE") :
    (convertAggregationTemporality s).2 =
      some ("invalid aggregation_temporality: " ++ s) ∧
    (convertAggregationTemporality s).1 = "" ∧
    FromOTelAggregationTemporality t = "" := by
  simp [convertAggregationTemporality, FromOTelAggregationTemporality,
    hs1, hs2, ht1, ht2]

/-- C5 witness: the forward mapping at `"delta"` (lowercase, unrecognized)
and the reverse mapping at `"CUMULATIVE"` (a user-facing string, not an
engine string). -/
theorem codec_asymmetry_witness :
    (convertAggregationTemporality "delta").2 =
      some ("invalid aggregation_temporality: " ++ "delta") ∧
    (convertAggregationTemporality "delta").1 = "" ∧
    FromOTelAggregationTemporality "CUMULATIVE" = "" :=
  codec_asymmetry "delta" "CUMULATIVE"
    (by decide) (by decide) (by decide) (by decide)

/-- C6: `SetToDefault` overwrites the whole receiver with the fixed
baseline, whatever was populated before: cache size 1000, temporality
CUMULATIVE, flush interval 15 s (15 000 000 000 ns), every other field at
its zero value (empty lists and strings, zero histogram and exemplars
sub-configurations, nil output). -/
theorem setToDefault_full_overwrite (a : Arguments) :
    a.SetToDefault =
      { Dimensions := []
        ExcludeDimensions := []
        DimensionsCacheSize := 1000
        AggregationTemporality := "CUMULATIVE"
        Histogram := HistogramConfig.zero
        MetricsFlushInterval := 15 * 1000000000
        Namespace := ""
        Exemplars := { Enabled := false }
        Output := none } := rfl

/-- C7: `SetToDefault` followed immediately by `Validate` succeeds on every
starting value: the default baseline satisfies all three constraints. -/
theorem setToDefault_validates (a : Arguments) :
    (a.SetToDefault).Validate = none := rfl

/-- Concrete arguments used by the exclude-dimensions witness. -/
def argsExclExample : Arguments :=
  { Dimensions := []
    ExcludeDimensions := ["service.name", "span.kind"]
    DimensionsCacheSize := 10
    AggregationTemporality := "DELTA"
    Histogram := { conv := Except.ok { payload := "h" } }
    MetricsFlushInterval := 1
    Namespace := ""
    Exemplars := { Enabled := false }
    Output := none }

/-- Concrete engine configuration produced by `argsExclExample.Convert`. -/
def cfgExclExample : Config :=
  { Dimensions := []
    ExcludeDimensions := ["service.name", "span.kind"]
    DimensionsCacheSize := 10
    AggregationTemporality := "AGGREGATION_TEMPORALITY_DELTA"
    Histogram := { payload := "h" }
    MetricsFlushInterval := 1
    Namespace := ""
    Exemplars := { Enabled := false } }

/-- C8: `Convert` copies `exclude_dimensions` into a new independent
sequence. Value level: a successful `Convert`'s exclude list is element-wise
equal to the input's. Reference level (the `append([]string(nil), src...)`
idiom of line 149 under the slice store): the copy's contents equal the
source's, the copy lives in a fresh backing array, so writing through the
original reference afterwards leaves the copy's contents untouched, and
writing through the copy leaves the original's contents untouched. -/
theorem convert_exclude_dimensions_independent_copy
    (a : Arguments) (cfg : Config) (hconv : a.Convert = (some cfg, none))
    (st : SliceStore) (src : SliceRef) (hv : src.id < st.next) (v : List String) :
    cfg.ExcludeDimensions = a.ExcludeDimensions ∧
    ((appendCopyNil st src).2).data (appendCopyNil st src).1.id = st.data src.id ∧
    (appendCopyNil st src).1.id ≠ src.id ∧
    (writeSlice (appendCopyNil st src).2 src v).data (appendCopyNil st src).1.id =
      st.data src.id ∧
    (writeSlice (appendCopyNil st src).2 (appendCopyNil st src).1 v).data src.id =
      st.data src.id := by
  have hne : src.id ≠ st.next := Nat.ne_of_lt hv
  refine ⟨?_, ?_, ?_, ?_, ?_⟩
  · unfold Arguments.Convert at hconv
    cases hh : a.Histogram.Convert with
    | error e => rw [hh] at hconv; simp at hconv
    | ok hg =>
      rw [hh] at hconv
      cases ht : convertAggregationTemporality a.AggregationTemporality with
      | mk et eo =>
        rw [ht] at hconv
        cases eo with
        | some e => simp at hconv
        | none =>
          simp only [Prod.mk.injEq, Option.some.injEq] at hconv
          rw [← hconv.1]
  · simp [appendCopyNil]
  · simp only [appendCopyNil, ne_eq, SliceRef.mk.injEq]
    omega
  · have h2 : st.next ≠ src.id := Ne.symm hne
    simp [appendCopyNil, writeSlice, h2]
  · simp [appendCopyNil, writeSlice, hne]

/-- C8 witness: a concrete conversion and a concrete one-slice store; the
fresh copy keeps the original contents under a write through the original
reference, and conversely. -/
theorem convert_exclude_dimensions_independent_copy_witness :
    cfgExclExample.ExcludeDimensions = argsExclExample.ExcludeDimensions ∧
    ((appendCopyNil ⟨fun _ => ["service.name", "span.kind"], 1⟩ ⟨0⟩).2).data
      (appendCopyNil ⟨fun _ => ["service.name", "span.kind"], 1⟩ ⟨0⟩).1.id =
      (fun _ : Nat => ["service.name", "span.kind"]) 0 ∧
    (appendCopyNil ⟨fun _ => ["service.name", "span.kind"], 1⟩ ⟨0⟩).1.id ≠ (0 : Nat) ∧
    (writeSlice (appendCopyNil ⟨fun _ => ["service.name", "span.kind"], 1⟩ ⟨0⟩).2
      ⟨0⟩ ["overwritten"]).data
      (appendCopyNil ⟨fun _ => ["service.name", "span.kind"], 1⟩ ⟨0⟩).1.id =
      (fun _ : Nat => ["service.name", "span.kind"]) 0 ∧
    (writeSlice (appendCopyNil ⟨fun _ => ["service.name", "span.kind"], 1⟩ ⟨0⟩).2
      (appendCopyNil ⟨fun _ => ["service.name", "span.kind"], 1⟩ ⟨0⟩).1
      ["overwritten"]).data (0 : Nat) =
      (fun _ : Nat => ["service.name", "span.kind"]) 0 :=
  convert_exclude_dimensions_independent_copy argsExclExample cfgExclExample
    rfl ⟨fun _ => ["service.name", "span.kind"], 1⟩ ⟨0⟩ (by decide) ["overwritten"]

/-- C9: `Validate`'s messages identify the offending value: a non-positive
cache size makes it fail with a message containing that value's decimal
form, an invalid temporality (with valid numeric peers) makes it fail with
a message containing the offending string, and the end-to-end scenario —
defaulted arguments with `aggregation_temporality` set to `"delta"` — fails
with a message mentioning `"delta"`. -/
theorem validate_messages_name_offender (a : Arguments) :
    (a.DimensionsCacheSize ≤ 0 →
      ∃ pre post, a.Validate =
        some (pre ++ toString a.DimensionsCacheSize ++ post)) ∧
    (0 < a.DimensionsCacheSize → 0 < a.MetricsFlushInterval →
      ¬(a.AggregationTemporality = AggregationTemporalityCumulative ∨
        a.AggregationTemporality = AggregationTemporalityDelta) →
      ∃ pre post, a.Validate =
        some (pre ++ a.AggregationTemporality ++ post)) ∧
    (∃ pre post,
      ({ a.SetToDefault with AggregationTemporality := "delta" } : Arguments).Validate =
        some (pre ++ "delta" ++ post)) := by
  refine ⟨?_, ?_, ?_⟩
  · intro h
    exact ⟨"invalid cache size: ",
      ", the maximum number of the items in the cache should be positive",
      by simp [Arguments.Validate, h]⟩
  · intro h1 h2 h3
    refine ⟨"invalid aggregation_temporality: ", "", ?_⟩
    unfold Arguments.Validate
    rw [if_neg (by omega), if_neg (by omega), if_neg h3]
    simp
  · exact ⟨"invalid aggregation_temporality: ", "", rfl⟩

/-- Concrete arguments for C10's witness: temporality valid and histogram
convertible, but the cache size and the flush interval both violate the
`Validate` constraints. -/
def argsInvalidNumerics : Arguments :=
  { Dimensions := []
    ExcludeDimensions := []
    DimensionsCacheSize := -5
    AggregationTemporality := "CUMULATIVE"
    Histogram := { conv := Except.ok { payload := "h" } }
    MetricsFlushInterval := 0
    Namespace := ""
    Exemplars := { Enabled := false }
    Output := none }

/-- C10: `Convert` re-checks only the temporality, not the numeric
constraints: with a valid temporality and a convertible histogram it
succeeds even when `DimensionsCacheSize ≤ 0` or `MetricsFlushInterval ≤ 0`,
copying those values unchanged into the engine config. -/
theorem convert_skips_numeric_checks (a : Arguments) (hg : Histogram)
    (ht : a.AggregationTemporality = AggregationTemporalityCumulative ∨
          a.AggregationTemporality = AggregationTemporalityDelta)
    (hh : a.Histogram.Convert = Except.ok hg) :
    ∃ cfg : Config, a.Convert = (some cfg, none) ∧
      cfg.DimensionsCacheSize = a.DimensionsCacheSize ∧
      cfg.MetricsFlushInterval = a.MetricsFlushInterval := by
  obtain ⟨et, het⟩ :
      ∃ et, convertAggregationTemporality a.AggregationTemporality = (et, none) := by
    rcases ht with ht | ht
    · exact ⟨"AGGREGATION_TEMPORALITY_CUMULATIVE", by rw [ht]; rfl⟩
    · exact ⟨"AGGREGATION_TEMPORALITY_DELTA", by rw [ht]; rfl⟩
  refine ⟨{ Dimensions := a.Dimensions.map Dimension.Convert
            ExcludeDimensions := a.ExcludeDimensions
            DimensionsCacheSize := a.DimensionsCacheSize
            AggregationTemporality := et
            Histogram := hg
            MetricsFlushInterval := a.MetricsFlushInterval
            Namespace := a.Namespace
            Exemplars := a.Exemplars.Convert }, ?_, rfl, rfl⟩
  unfold Arguments.Convert
  rw [hh, het]

/-- C10 witness: `Convert` succeeds on `argsInvalidNumerics` (cache size
−5, flush interval 0) and copies both invalid values unchanged. -/
theorem convert_skips_numeric_checks_witness :
    ∃ cfg : Config, argsInvalidNumerics.Convert = (some cfg, none) ∧
      cfg.DimensionsCacheSize = argsInvalidNumerics.DimensionsCacheSize ∧
      cfg.MetricsFlushInterval = argsInvalidNumerics.MetricsFlushInterval :=
  convert_skips_numeric_checks argsInvalidNumerics { payload := "h" }
    (Or.inl rfl) rfl

end spanmetrics
